import Mathlib

/-!
Verification of the NYC taxi congestion-audit pipeline.

The pipeline's stages are SQL queries executed by an analytical engine over
parquet batches (phase1_pipeline.py, phase2_analysis.py, phase2_impact.py,
phase3_visuals.py).  We embed the record shapes and the per-record / per-list
semantics of those queries.  SQL's three-valued logic over nullable columns is
modelled with `Option`: `none` is NULL, and every scalar operator and
comparison propagates NULL; `AND`/`OR`/`NOT` use Kleene logic; a `WHERE`
clause keeps a row only when its condition evaluates to TRUE (not NULL).
-/

/-- Kleene NOT: NULL maps to NULL. -/
def sqlNot (a : Option Bool) : Option Bool := a.map not

/-- Kleene AND: FALSE dominates, NULL otherwise propagates. -/
def sqlAnd : Option Bool → Option Bool → Option Bool
  | some false, _ => some false
  | _, some false => some false
  | some true, some true => some true
  | _, _ => none

/-- Kleene OR: TRUE dominates, NULL otherwise propagates. -/
def sqlOr : Option Bool → Option Bool → Option Bool
  | some true, _ => some true
  | _, some true => some true
  | some false, some false => some false
  | _, _ => none

/-- SQL `<` on nullable numerics. -/
def sqlLt (a b : Option ℚ) : Option Bool :=
  match a, b with
  | some x, some y => some (decide (x < y))
  | _, _ => none

/-- SQL `>` on nullable numerics. -/
def sqlGt (a b : Option ℚ) : Option Bool :=
  match a, b with
  | some x, some y => some (decide (y < x))
  | _, _ => none

/-- SQL `>=` on nullable numerics. -/
def sqlGe (a b : Option ℚ) : Option Bool :=
  match a, b with
  | some x, some y => some (decide (y ≤ x))
  | _, _ => none

/-- SQL `=` on nullable numerics. -/
def sqlEq (a b : Option ℚ) : Option Bool :=
  match a, b with
  | some x, some y => some (decide (x = y))
  | _, _ => none

/-- SQL subtraction on nullable numerics. -/
def sqlSub (a b : Option ℚ) : Option ℚ :=
  match a, b with
  | some x, some y => some (x - y)
  | _, _ => none

/-- SQL multiplication on nullable numerics. -/
def sqlMul (a b : Option ℚ) : Option ℚ :=
  match a, b with
  | some x, some y => some (x * y)
  | _, _ => none

/-- SQL division on nullable numerics.  A NULL operand gives NULL; the
division-by-zero case also yields NULL — in every query verified below the
divisor is guarded so that this case is never reached with a non-NULL
dividend. -/
def sqlDiv (a b : Option ℚ) : Option ℚ :=
  match a, b with
  | some x, some y => if y = 0 then none else some (x / y)
  | _, _ => none

/-- A `WHERE` clause keeps a row iff its condition is TRUE; FALSE and NULL
both drop the row. -/
def isTrue3 (c : Option Bool) : Bool := c.getD false

/-- SQL `IN (list of non-null constants)`: NULL scrutinee gives NULL. -/
def sqlInList (x : Option ℤ) (s : List ℤ) : Option Bool :=
  x.map (fun v => decide (v ∈ s))

/-- SQL `SUM`: NULL entries are ignored; the sum over no non-NULL entries is
NULL. -/
def sqlSum (l : List (Option ℚ)) : Option ℚ :=
  let v := l.filterMap id
  if v = [] then none else some v.sum

/-- SQL `AVG`: NULL entries are ignored; the average over no non-NULL entries
is NULL. -/
def sqlAvg (l : List (Option ℚ)) : Option ℚ :=
  let v := l.filterMap id
  if v = [] then none else some (v.sum / (v.length : ℚ))

/-- A civil timestamp (the engine's TIMESTAMP type), second precision. -/
structure DateTime where
  year : ℤ
  month : ℕ
  day : ℕ
  hour : ℕ
  minute : ℕ
  second : ℕ
deriving DecidableEq, Repr

/-- Gregorian leap-year rule. -/
def isLeapYear (y : ℤ) : Bool := (y % 4 == 0 && y % 100 != 0) || (y % 400 == 0)

/-- Number of days in a month of a given year. -/
def daysInMonth (y : ℤ) (m : ℕ) : ℕ :=
  if m = 2 then (if isLeapYear y then 29 else 28)
  else if m = 4 ∨ m = 6 ∨ m = 9 ∨ m = 11 then 30
  else 31

/-- Days since 1970-01-01 of a civil date (standard civil-from-days inverse,
valid for all Gregorian dates). -/
def daysFromCivil (y : ℤ) (m d : ℕ) : ℤ :=
  let y' : ℤ := y - (if m ≤ 2 then 1 else 0)
  let era : ℤ := Int.fdiv y' 400
  let yoe : ℤ := y' - era * 400
  let mp : ℤ := Int.emod (Int.ofNat m + 9) 12
  let doy : ℤ := Int.ediv (153 * mp + 2) 5 + Int.ofNat d - 1
  let doe : ℤ := yoe * 365 + Int.ediv yoe 4 - Int.ediv yoe 100 + doy
  era * 146097 + doe - 719468

/-- Unix-epoch seconds of a timestamp: the engine's `date_part('epoch', t)`. -/
def epochOf (t : DateTime) : ℤ :=
  86400 * daysFromCivil t.year t.month t.day
    + 3600 * (t.hour : ℤ) + 60 * (t.minute : ℤ) + (t.second : ℤ)

/-- The engine's `t + INTERVAL k YEAR`: calendar-year shift, clamping the day
to the target month's length (only Feb 29 can clamp). -/
def addYears (k : ℤ) (t : DateTime) : DateTime :=
  { t with year := t.year + k, day := min t.day (daysInMonth (t.year + k) t.month) }

/-- Epoch seconds of a nullable timestamp column, as a nullable numeric. -/
def epochQ (t : Option DateTime) : Option ℚ := t.map (fun dt => (epochOf dt : ℚ))

/-- Canonical trip record produced by phase-1 normalization (`raw_data` CTE in
`DuckDBPipeline.process_batch`): every data column is nullable. -/
structure TripRec where
  pickup_time : Option DateTime
  dropoff_time : Option DateTime
  pickup_loc : Option ℤ
  dropoff_loc : Option ℤ
  trip_distance : Option ℚ
  fare : Option ℚ
  total_amount : Option ℚ
  congestion_surcharge : Option ℚ
  taxi_type : String
deriving DecidableEq, Repr

/-- CONGESTION_ZONE_IDS from phase2_analysis.py / phase2_impact.py /
phase3_visuals.py (identical tuples). -/
def CONGESTION_ZONE_IDS : List ℤ :=
  [12, 13, 43, 45, 48, 50, 68, 79, 87, 88, 90, 100, 107, 113, 114, 116, 120, 125,
   137, 140, 141, 142, 143, 144, 148, 151, 152, 153, 158, 161, 162, 163, 164, 166,
   170, 186, 209, 211, 224, 229, 230, 231, 232, 233, 234, 236, 237, 238, 239, 243,
   244, 246, 249, 261, 262, 263]

/-- BORDER_ZONES from phase3_visuals.py. -/
def BORDER_ZONES : List ℤ :=
  [238, 239, 263, 262, 236, 237, 74, 75, 142, 143, 43, 48, 50, 100, 161, 162, 163, 164, 230]

/-- `metrics` CTE: duration in hours, `(epoch(dropoff) - epoch(pickup)) / 3600.0`. -/
def duration_hrs (r : TripRec) : Option ℚ :=
  sqlDiv (sqlSub (epochQ r.dropoff_time) (epochQ r.pickup_time)) (some 3600)

/-- `calc` CTE: `CASE WHEN duration_hrs > 0 THEN trip_distance / duration_hrs
ELSE 0 END`. -/
def speed_mph (r : TripRec) : Option ℚ :=
  if isTrue3 (sqlGt (duration_hrs r) (some 0)) then sqlDiv r.trip_distance (duration_hrs r)
  else some 0

/-- `flagged` CTE: `speed_mph > 65 AND trip_distance > 1`. -/
def is_physics_fail (r : TripRec) : Option Bool :=
  sqlAnd (sqlGt (speed_mph r) (some 65)) (sqlGt r.trip_distance (some 1))

/-- `flagged` CTE: `duration_hrs < (1.0/60.0) AND fare > 20`. -/
def is_teleporter (r : TripRec) : Option Bool :=
  sqlAnd (sqlLt (duration_hrs r) (some (1/60))) (sqlGt r.fare (some 20))

/-- `flagged` CTE: `trip_distance = 0 AND fare > 0`. -/
def is_stationary (r : TripRec) : Option Bool :=
  sqlAnd (sqlEq r.trip_distance (some 0)) (sqlGt r.fare (some 0))

/-- The audit-side filter `(is_physics_fail OR is_teleporter OR is_stationary)`. -/
def anomalyFlag (r : TripRec) : Option Bool :=
  sqlOr (sqlOr (is_physics_fail r) (is_teleporter r)) (is_stationary r)

/-- The clean-side filter `NOT (is_physics_fail OR is_teleporter OR is_stationary)`. -/
def cleanCond (r : TripRec) : Option Bool := sqlNot (anomalyFlag r)

/-- Rows exported to `clean_data` by `process_batch`. -/
def cleanPartition (l : List TripRec) : List TripRec :=
  l.filter (fun r => isTrue3 (cleanCond r))

/-- Rows exported to `audit_log` by `process_batch`. -/
def auditPartition (l : List TripRec) : List TripRec :=
  l.filter (fun r => isTrue3 (anomalyFlag r))

/-!
Phase 2 core analysis (`AnalysisPipeline` in phase2_analysis.py), over the
clean partition.
-/

/-- The fraud queries' guarded divisor:
`CASE WHEN (epoch diff)/3600.0 = 0 THEN 1 ELSE (epoch diff)/3600.0 END`. -/
def fraudDivisor (r : TripRec) : Option ℚ :=
  if isTrue3 (sqlEq (duration_hrs r) (some 0)) then some 1 else duration_hrs r

/-- Effective speed in `analyze_fraud` / `analyze_suspicious_vendors`:
`trip_distance / (guarded divisor)`. -/
def fraudSpeed (r : TripRec) : Option ℚ := sqlDiv r.trip_distance (fraudDivisor r)

/-- First fraud predicate: effective speed `> 100`. -/
def fraudTeleporterPred (r : TripRec) : Option Bool := sqlGt (fraudSpeed r) (some 100)

/-- Second fraud predicate: `trip_distance = 0 AND congestion_surcharge > 0`. -/
def fraudStationaryPred (r : TripRec) : Option Bool :=
  sqlAnd (sqlEq r.trip_distance (some 0)) (sqlGt r.congestion_surcharge (some 0))

/-- The fraud queries' `WHERE` condition: first predicate OR second predicate. -/
def fraudFilter (r : TripRec) : Option Bool :=
  sqlOr (fraudTeleporterPred r) (fraudStationaryPred r)

/-- The `CASE` labelling of `analyze_fraud`: speed branch first, then the
stationary branch, else `'Other'`. -/
def violationType (r : TripRec) : String :=
  if isTrue3 (fraudTeleporterPred r) then "Teleporter (>100mph)"
  else if isTrue3 (fraudStationaryPred r) then "Stationary Charge"
  else "Other"

/-- Rows admitted by the fraud queries' `WHERE` clause. -/
def fraudKept (l : List TripRec) : List TripRec :=
  l.filter (fun r => isTrue3 (fraudFilter r))

/-- The distinct `violation_type` values of the grouped fraud summary
(`GROUP BY 1`); the claims do not depend on counts or ordering. -/
def fraudSummaryTypes (l : List TripRec) : List String :=
  ((fraudKept l).map violationType).dedup

/-- `analyze_fairness` rows: the whole query carries `WHERE fare > 0`. -/
def fairnessRows (l : List TripRec) : List TripRec :=
  l.filter (fun r => isTrue3 (sqlGt r.fare (some 0)))

/-- The tip expression
`CASE WHEN fare > 0 THEN (total_amount - fare - congestion_surcharge) / fare ELSE 0 END`. -/
def tipCaseExpr (r : TripRec) : Option ℚ :=
  if isTrue3 (sqlGt r.fare (some 0)) then
    sqlDiv (sqlSub (sqlSub r.total_amount r.fare) r.congestion_surcharge) r.fare
  else some 0

/-- `avg_tip_percent`: `AVG(tip case) * 100` over the `fare > 0` rows. -/
def avg_tip_percent (l : List TripRec) : Option ℚ :=
  sqlMul (sqlAvg ((fairnessRows l).map tipCaseExpr)) (some 100)

/-- The short-trip indicator
`CASE WHEN trip_distance < 2 AND dropoff_loc IN CONGESTION_ZONE_IDS THEN 1 ELSE 0 END`. -/
def shortTripCase (r : TripRec) : Option ℚ :=
  some (if isTrue3 (sqlAnd (sqlLt r.trip_distance (some 2))
                           (sqlInList r.dropoff_loc CONGESTION_ZONE_IDS)) then 1 else 0)

/-- `short_trip_count`: `SUM(short-trip case)` over the `fare > 0` rows. -/
def short_trip_count (l : List TripRec) : Option ℚ :=
  sqlSum ((fairnessRows l).map shortTripCase)

/-!
Phase 2 impact analysis (`ImpactAnalysis.audit_leakage` in phase2_impact.py).
-/

/-- Epoch of the cutover timestamp `'2025-01-05'` (cast to midnight). -/
def cutoverEpoch : ℚ := (epochOf ⟨2025, 1, 5, 0, 0, 0⟩ : ℚ)

/-- Eligibility condition of the `eligible_trips` CTE:
`pickup_time >= '2025-01-05' AND pickup_loc NOT IN zone AND dropoff_loc IN zone`. -/
def eligibleCond (r : TripRec) : Option Bool :=
  sqlAnd (sqlAnd (sqlGe (epochQ r.pickup_time) (some cutoverEpoch))
                 (sqlNot (sqlInList r.pickup_loc CONGESTION_ZONE_IDS)))
         (sqlInList r.dropoff_loc CONGESTION_ZONE_IDS)

/-- The `eligible_trips` CTE. -/
def eligibleTrips (l : List TripRec) : List TripRec :=
  l.filter (fun r => isTrue3 (eligibleCond r))

/-- `CASE WHEN congestion_surcharge > 0 THEN 1 ELSE 0 END`. -/
def complianceCase (r : TripRec) : Option ℚ :=
  some (if isTrue3 (sqlGt r.congestion_surcharge (some 0)) then 1 else 0)

/-- `total_eligible_trips`: `COUNT(*)` over the eligible CTE. -/
def total_eligible_trips (l : List TripRec) : ℕ := (eligibleTrips l).length

/-- `compliant_trips`: `SUM(compliance case)` over the eligible CTE. -/
def compliant_trips (l : List TripRec) : Option ℚ :=
  sqlSum ((eligibleTrips l).map complianceCase)

/-- `compliance_rate_pct`: `SUM(compliance case) * 100.0 / COUNT(*)`. -/
def compliance_rate_pct (l : List TripRec) : Option ℚ :=
  sqlDiv (sqlMul (compliant_trips l) (some 100)) (some (total_eligible_trips l : ℚ))

/-- `estimated_revenue_loss`: `(COUNT(*) - SUM(compliance case)) * 2.75`. -/
def estimated_revenue_loss (l : List TripRec) : Option ℚ :=
  sqlMul (sqlSub (some (total_eligible_trips l : ℚ)) (compliant_trips l)) (some (11/4))

/-!
Phase 1 batch processing and imputation (`DuckDBPipeline` in
phase1_pipeline.py).  A raw parquet row carries both dialects' timestamp
columns (a file of one dialect has the other dialect's columns absent, i.e.
NULL under `union_by_name`), plus the scanned `filename`.
-/

/-- Raw parquet row, pre-normalization. -/
structure RawRow where
  tpep_pickup_datetime : Option DateTime
  tpep_dropoff_datetime : Option DateTime
  lpep_pickup_datetime : Option DateTime
  lpep_dropoff_datetime : Option DateTime
  PULocationID : Option ℤ
  DOLocationID : Option ℤ
  trip_distance : Option ℚ
  fare_amount : Option ℚ
  total_amount : Option ℚ
  congestion_surcharge : Option ℚ
  filename : String
deriving DecidableEq, Repr

/-- Python's substring test `needle in hay`, over the character list. -/
def strContainsAux (needle : List Char) : List Char → Bool
  | [] => needle.isEmpty
  | c :: rest => needle.isPrefixOf (c :: rest) || strContainsAux needle rest

/-- Python's substring test `needle in hay`. -/
def strContains (needle hay : String) : Bool := strContainsAux needle.data hay.data

/-- `process_batch` column selection: files whose name contains `"yellow"`
read the `tpep_*` timestamp columns, all others the `lpep_*` columns. -/
def normalizeBatchRow (filename : String) (row : RawRow) : TripRec :=
  if strContains "yellow" filename then
    { pickup_time := row.tpep_pickup_datetime, dropoff_time := row.tpep_dropoff_datetime,
      pickup_loc := row.PULocationID, dropoff_loc := row.DOLocationID,
      trip_distance := row.trip_distance, fare := row.fare_amount,
      total_amount := row.total_amount, congestion_surcharge := row.congestion_surcharge,
      taxi_type := "yellow" }
  else
    { pickup_time := row.lpep_pickup_datetime, dropoff_time := row.lpep_dropoff_datetime,
      pickup_loc := row.PULocationID, dropoff_loc := row.DOLocationID,
      trip_distance := row.trip_distance, fare := row.fare_amount,
      total_amount := row.total_amount, congestion_surcharge := row.congestion_surcharge,
      taxi_type := "green" }

/-- The batch loop of `DuckDBPipeline.run`:
`for f in files: self.process_batch(f, ...)` with no exception handler, so a
raised error propagates immediately (modelled by `Except`). -/
def runBatches {α β ε : Type} (pb : α → Except ε β) : List α → Except ε (List β)
  | [] => Except.ok []
  | b :: bs =>
    match pb b with
    | Except.error e => Except.error e
    | Except.ok v =>
      match runBatches pb bs with
      | Except.error e => Except.error e
      | Except.ok vs => Except.ok (v :: vs)

/-- The batches on which `process_batch` is actually invoked before the loop
stops (all of them in the success case; everything after the first failing
batch is never reached). -/
def attemptedBatches {α β ε : Type} (pb : α → Except ε β) : List α → List α
  | [] => []
  | b :: bs =>
    b :: (match pb b with
          | Except.error _ => []
          | Except.ok _ => attemptedBatches pb bs)

/-- The December check in `DuckDBPipeline.run`:
`if not any("2025-12" in f for f in files): self.impute_december()`. -/
def shouldImputeDecember (files : List String) : Bool :=
  ! files.any (fun f => strContains "2025-12" f)

/-- A pseudo-random mix of the engine's per-run sampling seed and a row index. -/
def lcgMix (seed i : ℕ) : ℕ := (1103515245 * seed + 12345 * i + 12345) % 2147483648

/-- Per-row keep decision of the sampler at a given percentage. -/
def sampleKeep (seed pct i : ℕ) : Bool := lcgMix seed i % 100 < pct

/-- Row-indexed sampling pass. -/
def sqlSampleAux {α : Type} (seed pct : ℕ) : ℕ → List α → List α
  | _, [] => []
  | i, a :: as =>
    if sampleKeep seed pct i then a :: sqlSampleAux seed pct (i + 1) as
    else sqlSampleAux seed pct (i + 1) as

/-- The engine's `USING SAMPLE pct%`.  The source query carries no
`REPEATABLE (seed)` clause, so the engine draws a fresh random seed on every
run; we model the sampler as a deterministic function of that per-run seed,
which is an input to the model, not fixed by the program. -/
def sqlSample {α : Type} (seed pct : ℕ) (rows : List α) : List α :=
  sqlSampleAux seed pct 0 rows

/-- SQL `COALESCE` of two nullable columns. -/
def coalesce {α : Type} : Option α → Option α → Option α
  | some x, _ => some x
  | none, b => b

/-- The per-row SELECT of `impute_december`: coalesced timestamps shifted by
`INTERVAL k YEAR`, and `taxi_type` derived from the scanned filename. -/
def imputeRow (k : ℤ) (row : RawRow) : TripRec :=
  { pickup_time := (coalesce row.tpep_pickup_datetime row.lpep_pickup_datetime).map (addYears k),
    dropoff_time := (coalesce row.tpep_dropoff_datetime row.lpep_dropoff_datetime).map (addYears k),
    pickup_loc := row.PULocationID, dropoff_loc := row.DOLocationID,
    trip_distance := row.trip_distance, fare := row.fare_amount,
    total_amount := row.total_amount, congestion_surcharge := row.congestion_surcharge,
    taxi_type := if strContains "yellow" row.filename then "yellow" else "green" }

/-- `DuckDBPipeline.impute_december`: a 30% sample of the 2023-12 rows shifted
by 2 years, `UNION ALL` a 70% sample of the 2024-12 rows shifted by 1 year
(the two SAMPLE clauses use independent streams of the per-run seed). -/
def impute_december (seed : ℕ) (dec2023 dec2024 : List RawRow) : List TripRec :=
  (sqlSample (2 * seed) 30 dec2023).map (imputeRow 2)
    ++ (sqlSample (2 * seed + 1) 70 dec2024).map (imputeRow 1)

/-- Contents of the `clean_data` partition after `DuckDBPipeline.run`: the
clean split of every processed batch, plus — exactly when no filename mentions
2025-12 — the imputed December file (written into the same directory). -/
def phase1CleanData (seed : ℕ) (batches : List (String × List RawRow))
    (dec2023 dec2024 : List RawRow) : List TripRec :=
  ((batches.map (fun b => cleanPartition (b.2.map (normalizeBatchRow b.1)))).flatten)
    ++ (if shouldImputeDecember (batches.map Prod.fst)
        then impute_december seed dec2023 dec2024 else [])

/-!
Phase 3 border effect (`VisualAudit.plot_border_effect` in phase3_visuals.py).
The baseline side scans raw 2024 rows; the comparison side scans the clean
partition.  The final `ORDER BY pct_change DESC` only permutes rows and is
not modelled (no claim concerns row order).
-/

/-- Baseline `WHERE DOLocationID IN BORDER_ZONES`. -/
def q24Keep (row : RawRow) : Bool := isTrue3 (sqlInList row.DOLocationID BORDER_ZONES)

/-- Zones of the grouped baseline CTE `t24` (one row per distinct zone). -/
def q24Zones (rows : List RawRow) : List ℤ :=
  ((rows.filter q24Keep).filterMap RawRow.DOLocationID).dedup

/-- `count_2024` of a zone in the grouped baseline CTE. -/
def q24Count (rows : List RawRow) (z : ℤ) : ℕ :=
  ((rows.filter q24Keep).filter (fun r => r.DOLocationID = some z)).length

/-- `MONTH(pickup_time) IN (1, 2, 3)` as a nullable boolean. -/
def monthIn123 (r : TripRec) : Option Bool :=
  r.pickup_time.map (fun dt => decide (dt.month = 1 ∨ dt.month = 2 ∨ dt.month = 3))

/-- Comparison `WHERE dropoff_loc IN BORDER_ZONES AND MONTH(pickup_time) IN (1,2,3)`. -/
def q25Keep (r : TripRec) : Bool :=
  isTrue3 (sqlAnd (sqlInList r.dropoff_loc BORDER_ZONES) (monthIn123 r))

/-- Zones of the grouped comparison CTE `t25`. -/
def q25Zones (rows : List TripRec) : List ℤ :=
  ((rows.filter q25Keep).filterMap TripRec.dropoff_loc).dedup

/-- `count_2025` of a zone in the grouped comparison CTE. -/
def q25Count (rows : List TripRec) (z : ℤ) : ℕ :=
  ((rows.filter q25Keep).filter (fun r => r.dropoff_loc = some z)).length

/-- The border-effect result rows: `t24 JOIN t25 ON ZoneID`, with
`pct_change = (count_2025 - count_2024) / count_2024 * 100` and
`location_type` from congestion-zone membership. -/
def borderEffect (rows24 : List RawRow) (rows25 : List TripRec) :
    List (ℤ × ℚ × String) :=
  ((q24Zones rows24).filter (fun z => decide (z ∈ q25Zones rows25))).map (fun z =>
    (z, ((q25Count rows25 z : ℚ) - (q24Count rows24 z : ℚ)) / (q24Count rows24 z : ℚ) * 100,
     if z ∈ CONGESTION_ZONE_IDS then "Inside Zone" else "Outside Zone"))


/-!
Concrete fixtures used by witness and counterexample theorems below.
-/

/-- A record with NULL `trip_distance` and an ordinary fare and duration. -/
def recNullDist : TripRec :=
  { pickup_time := some ⟨2025, 1, 10, 8, 0, 0⟩, dropoff_time := some ⟨2025, 1, 10, 8, 30, 0⟩,
    pickup_loc := some 7, dropoff_loc := some 7, trip_distance := none,
    fare := some 10, total_amount := some 12, congestion_surcharge := some 0,
    taxi_type := "yellow" }

/-- An ordinary clean record (30-minute trip, distance 3, fare 10). -/
def recCleanNormal : TripRec :=
  { pickup_time := some ⟨2025, 3, 1, 10, 0, 0⟩, dropoff_time := some ⟨2025, 3, 1, 10, 30, 0⟩,
    pickup_loc := some 7, dropoff_loc := some 7, trip_distance := some 3,
    fare := some 10, total_amount := some 12, congestion_surcharge := some 0,
    taxi_type := "yellow" }

/-- A record with exactly zero duration and distance 5. -/
def recZeroDur : TripRec :=
  { pickup_time := some ⟨2025, 2, 1, 12, 0, 0⟩, dropoff_time := some ⟨2025, 2, 1, 12, 0, 0⟩,
    pickup_loc := some 7, dropoff_loc := some 100, trip_distance := some 5,
    fare := some 30, total_amount := some 35, congestion_surcharge := some 0,
    taxi_type := "yellow" }

/-- A 20-second, 1-mile trip with fare 10: effective speed 180 mph, yet none
of the three phase-1 anomaly flags holds (distance is not `> 1`, fare is not
`> 20`). -/
def recFastShort : TripRec :=
  { pickup_time := some ⟨2025, 4, 2, 14, 0, 0⟩, dropoff_time := some ⟨2025, 4, 2, 14, 0, 20⟩,
    pickup_loc := some 7, dropoff_loc := some 100, trip_distance := some 1,
    fare := some 10, total_amount := some 12, congestion_surcharge := some 0,
    taxi_type := "yellow" }

/-- An eligible trip (pickup after the cutover, from outside the zone into
zone 161) carrying a surcharge. -/
def recLeakComp : TripRec :=
  { pickup_time := some ⟨2025, 2, 1, 9, 0, 0⟩, dropoff_time := some ⟨2025, 2, 1, 9, 10, 0⟩,
    pickup_loc := some 7, dropoff_loc := some 161, trip_distance := some 2,
    fare := some 10, total_amount := some 15, congestion_surcharge := some 3,
    taxi_type := "yellow" }

/-- The same eligible trip with a zero surcharge. -/
def recLeakNonComp : TripRec :=
  { pickup_time := some ⟨2025, 2, 1, 9, 0, 0⟩, dropoff_time := some ⟨2025, 2, 1, 9, 10, 0⟩,
    pickup_loc := some 7, dropoff_loc := some 161, trip_distance := some 2,
    fare := some 10, total_amount := some 15, congestion_surcharge := some 0,
    taxi_type := "yellow" }

/-- 100 eligible trips, 80 of them with a positive surcharge. -/
def leakHundred : List TripRec :=
  List.replicate 80 recLeakComp ++ List.replicate 20 recLeakNonComp

/-- A fare-paying record that is not a short congestion-zone trip. -/
def recFareOnly : TripRec :=
  { pickup_time := some ⟨2025, 5, 1, 9, 0, 0⟩, dropoff_time := some ⟨2025, 5, 1, 9, 40, 0⟩,
    pickup_loc := some 7, dropoff_loc := some 161, trip_distance := some 5,
    fare := some 10, total_amount := some 12, congestion_surcharge := some 0,
    taxi_type := "yellow" }

/-- A zero-fare record that satisfies the short-trip condition (distance 1,
drop-off in zone 161). -/
def recShortNoFare : TripRec :=
  { pickup_time := some ⟨2025, 5, 1, 10, 0, 0⟩, dropoff_time := some ⟨2025, 5, 1, 10, 10, 0⟩,
    pickup_loc := some 7, dropoff_loc := some 161, trip_distance := some 1,
    fare := some 0, total_amount := some 0, congestion_surcharge := some 0,
    taxi_type := "yellow" }

/-- A batch processor on which batch 0 raises and every other batch succeeds. -/
def pbFail0 (n : ℕ) : Except String ℕ :=
  if n = 0 then Except.error "malformed parquet" else Except.ok n

/-- A yellow-dialect December 2023 raw row with both locations set to `i`. -/
def rawDec23 (i : ℤ) : RawRow :=
  { tpep_pickup_datetime := some ⟨2023, 12, 3, 10, 0, 0⟩,
    tpep_dropoff_datetime := some ⟨2023, 12, 3, 10, 30, 0⟩,
    lpep_pickup_datetime := none, lpep_dropoff_datetime := none,
    PULocationID := some i, DOLocationID := some i, trip_distance := some 1,
    fare_amount := some 10, total_amount := some 12, congestion_surcharge := some 0,
    filename := "yellow_tripdata_2023-12.parquet" }

/-- A green-dialect December 2024 raw row with both locations set to `i`. -/
def rawDec24 (i : ℤ) : RawRow :=
  { tpep_pickup_datetime := none, tpep_dropoff_datetime := none,
    lpep_pickup_datetime := some ⟨2024, 12, 7, 18, 0, 0⟩,
    lpep_dropoff_datetime := some ⟨2024, 12, 7, 18, 20, 0⟩,
    PULocationID := some i, DOLocationID := some i, trip_distance := some 1,
    fare_amount := some 10, total_amount := some 12, congestion_surcharge := some 0,
    filename := "green_tripdata_2024-12.parquet" }

/-- Ten December 2023 rows. -/
def dec23Rows : List RawRow := (List.range 10).map (fun n => rawDec23 (n : ℤ))

/-- Ten December 2024 rows. -/
def dec24Rows : List RawRow := (List.range 10).map (fun n => rawDec24 (n : ℤ))

/-- A batch list containing no December 2025 file. -/
def batchesNoDec : List (String × List RawRow) :=
  [("yellow_tripdata_2025-01.parquet", [rawDec23 5])]

/-- A batch list containing a December 2025 file. -/
def batchesWithDec : List (String × List RawRow) :=
  [("yellow_tripdata_2025-01.parquet", [rawDec23 5]),
   ("yellow_tripdata_2025-12.parquet", [rawDec23 6])]

/-- A 2024 baseline raw row dropping off in border zone `z`. -/
def raw24DO (z : ℤ) : RawRow :=
  { tpep_pickup_datetime := some ⟨2024, 1, 15, 9, 0, 0⟩,
    tpep_dropoff_datetime := some ⟨2024, 1, 15, 9, 30, 0⟩,
    lpep_pickup_datetime := none, lpep_dropoff_datetime := none,
    PULocationID := some 7, DOLocationID := some z, trip_distance := some 1,
    fare_amount := some 10, total_amount := some 12, congestion_surcharge := some 0,
    filename := "yellow_tripdata_2024-01.parquet" }

/-- A Q1-2025 clean record dropping off in border zone `z`. -/
def rec25DO (z : ℤ) : TripRec :=
  { pickup_time := some ⟨2025, 1, 15, 9, 0, 0⟩, dropoff_time := some ⟨2025, 1, 15, 9, 30, 0⟩,
    pickup_loc := some 7, dropoff_loc := some z, trip_distance := some 1,
    fare := some 10, total_amount := some 12, congestion_surcharge := some 0,
    taxi_type := "yellow" }

/-- Baseline period with drop-off zones 238, 239, 263. -/
def border24Rows : List RawRow := [raw24DO 238, raw24DO 239, raw24DO 263]

/-- Comparison period with drop-off zones 239, 263, 262. -/
def border25Rows : List TripRec := [rec25DO 239, rec25DO 263, rec25DO 262]

/-!
Shared facts about the three-valued connectives and the guarded divisor.
-/

/-- Kleene OR is TRUE exactly when one operand is TRUE. -/
lemma sqlOr_eq_some_true (a b : Option Bool) :
    sqlOr a b = some true ↔ (a = some true ∨ b = some true) := by
  revert a b; decide

/-- Kleene AND is TRUE exactly when both operands are TRUE. -/
lemma sqlAnd_eq_some_true (a b : Option Bool) :
    sqlAnd a b = some true ↔ (a = some true ∧ b = some true) := by
  revert a b; decide

/-- Kleene NOT is TRUE exactly when its operand is FALSE. -/
lemma sqlNot_eq_some_true (a : Option Bool) :
    sqlNot a = some true ↔ a = some false := by
  revert a; decide

/-- Evaluation helper: the duration of a record with non-NULL timestamps whose
epoch difference is `n` seconds. -/
lemma duration_hrs_eval (r : TripRec) (p q : DateTime) (n : ℤ)
    (hp : r.pickup_time = some p) (hq : r.dropoff_time = some q)
    (h : epochOf q - epochOf p = n) :
    duration_hrs r = some ((n : ℚ) / 3600) := by
  simp only [duration_hrs, epochQ, hp, hq, Option.map_some', sqlSub, sqlDiv]
  rw [show ((epochOf q : ℚ) - (epochOf p : ℚ)) = ((n : ℤ) : ℚ) by
        exact_mod_cast congrArg (fun z => ((z : ℤ) : ℚ)) h]
  norm_num

/-- The fraud queries' guarded divisor is never the non-NULL value 0: a zero
duration is replaced by 1, and the else-branch only passes through a duration
already known not to be 0. -/
lemma fraudDivisor_ne_some_zero (r : TripRec) : fraudDivisor r ≠ some 0 := by
  unfold fraudDivisor
  split
  · simp
  · rename_i hfalse
    intro h
    simp [h, sqlEq, isTrue3] at hfalse

/-- If the stationary-charge fraud predicate is TRUE then the distance is the
non-NULL value 0, hence the effective speed is 0 or NULL and the teleporter
predicate is not TRUE. -/
lemma stationary_not_teleporter (r : TripRec)
    (h : fraudStationaryPred r = some true) : fraudTeleporterPred r ≠ some true := by
  rcases (sqlAnd_eq_some_true _ _).1 h with ⟨hdist, _⟩
  have hd0 : r.trip_distance = some 0 := by
    unfold sqlEq at hdist
    cases hx : r.trip_distance with
    | none => rw [hx] at hdist; exact absurd hdist (by simp)
    | some x =>
      rw [hx] at hdist
      simp only [Option.some.injEq, decide_eq_true_eq] at hdist
      simp [hdist]
  intro ht
  unfold fraudTeleporterPred fraudSpeed at ht
  rw [hd0] at ht
  cases hdiv : fraudDivisor r with
  | none => rw [hdiv] at ht; simp [sqlDiv, sqlGt] at ht
  | some d =>
    have hdne : d ≠ 0 := by
      intro h0; exact fraudDivisor_ne_some_zero r (h0 ▸ hdiv)
    rw [hdiv] at ht
    simp only [sqlDiv, hdne, if_false, zero_div, sqlGt, Option.some.injEq,
      decide_eq_true_eq] at ht
    exact absurd ht (by norm_num)

/-- The anomaly flag of the NULL-distance fixture evaluates to NULL. -/
lemma anomalyFlag_recNullDist : anomalyFlag recNullDist = none := by
  have hdur : duration_hrs recNullDist = some ((1800 : ℤ) / 3600 : ℚ) := by
    have := duration_hrs_eval recNullDist ⟨2025, 1, 10, 8, 0, 0⟩ ⟨2025, 1, 10, 8, 30, 0⟩
      1800 rfl rfl (by decide)
    simpa using this
  simp only [anomalyFlag, is_physics_fail, is_teleporter, is_stationary, speed_mph, hdur]
  norm_num [recNullDist, sqlGt, sqlLt, sqlEq, sqlAnd, sqlOr, sqlDiv, isTrue3]

/-- The anomaly flag of the ordinary clean fixture evaluates to FALSE. -/
lemma anomalyFlag_recCleanNormal : anomalyFlag recCleanNormal = some false := by
  have hdur : duration_hrs recCleanNormal = some ((1800 : ℤ) / 3600 : ℚ) := by
    have := duration_hrs_eval recCleanNormal ⟨2025, 3, 1, 10, 0, 0⟩ ⟨2025, 3, 1, 10, 30, 0⟩
      1800 rfl rfl (by decide)
    simpa using this
  simp only [anomalyFlag, is_physics_fail, is_teleporter, is_stationary, speed_mph, hdur]
  norm_num [recCleanNormal, sqlGt, sqlLt, sqlEq, sqlAnd, sqlOr, sqlDiv, isTrue3]

/-- C1 (counterexample): the claim asserts the clean/audit partition is total
for every record, including NULLs, but `recNullDist` (NULL trip_distance,
fare 10, a 30-minute duration) is routed to neither the clean nor the audit
output. -/
theorem clean_audit_partition_cex :
    recNullDist ∈ ([recNullDist] : List TripRec) ∧
    recNullDist ∉ cleanPartition [recNullDist] ∧
    recNullDist ∉ auditPartition [recNullDist] := by
  refine ⟨by simp, ?_, ?_⟩ <;>
    simp [cleanPartition, auditPartition, cleanCond, List.mem_filter,
      anomalyFlag_recNullDist, sqlNot, isTrue3]

/-- C1 (amended): the clean/audit split is always exclusive (no record reaches
both outputs), and it is total exactly on records whose anomaly-flag
disjunction evaluates to a non-NULL boolean: such a record is in the clean
partition iff it is not in the audit partition, while a record whose flag is
NULL is dropped by both sides. -/
theorem clean_audit_partition_amended :
    (∀ (l : List TripRec) (r : TripRec), ¬(r ∈ cleanPartition l ∧ r ∈ auditPartition l)) ∧
    (∀ (l : List TripRec) (r : TripRec), r ∈ l → anomalyFlag r ≠ none →
      (r ∈ cleanPartition l ↔ r ∉ auditPartition l)) := by
  constructor
  · rintro l r ⟨hc, ha⟩
    rw [cleanPartition, List.mem_filter] at hc
    rw [auditPartition, List.mem_filter] at ha
    have h1 := hc.2
    have h2 := ha.2
    cases hflag : anomalyFlag r with
    | none => simp [cleanCond, sqlNot, isTrue3, hflag] at h1
    | some b =>
      cases b
      · simp [isTrue3, hflag] at h2
      · simp [cleanCond, sqlNot, isTrue3, hflag] at h1
  · intro l r hl hne
    rw [cleanPartition, auditPartition, List.mem_filter, List.mem_filter]
    cases hflag : anomalyFlag r with
    | none => exact absurd hflag hne
    | some b =>
      cases b <;> simp [cleanCond, sqlNot, isTrue3, hflag, hl]

/-- C1 (witness): the amended totality statement applied to the concrete
clean record `recCleanNormal`. -/
theorem clean_audit_partition_amended_witness :
    recCleanNormal ∈ ([recCleanNormal] : List TripRec) ∧
    anomalyFlag recCleanNormal ≠ none ∧
    (recCleanNormal ∈ cleanPartition [recCleanNormal] ↔
      recCleanNormal ∉ auditPartition [recCleanNormal]) :=
  ⟨by simp, by rw [anomalyFlag_recCleanNormal]; simp,
   clean_audit_partition_amended.2 [recCleanNormal] recCleanNormal (by simp)
     (by rw [anomalyFlag_recCleanNormal]; simp)⟩

/-!
Claim C2.  Only the phase-2 fraud queries use the 1-hour floor; the phase-1
classifier maps a non-positive (or NULL) duration to the literal speed 0.
-/

/-- C2 (counterexample): the claim asserts speed = trip_distance on
zero-duration records everywhere speed is evaluated, but on `recZeroDur`
(zero duration, distance 5) the phase-1 classifier computes speed 0 while the
phase-2 fraud query computes 5. -/
theorem zero_duration_guard_cex :
    duration_hrs recZeroDur = some 0 ∧
    recZeroDur.trip_distance = some 5 ∧
    speed_mph recZeroDur = some 0 ∧
    fraudSpeed recZeroDur = some 5 := by
  have hdur : duration_hrs recZeroDur = some 0 := by
    have := duration_hrs_eval recZeroDur ⟨2025, 2, 1, 12, 0, 0⟩ ⟨2025, 2, 1, 12, 0, 0⟩
      0 rfl rfl (by decide)
    simpa using this
  refine ⟨hdur, rfl, ?_, ?_⟩
  · simp [speed_mph, hdur, sqlGt, isTrue3]
  · have hdiv : fraudDivisor recZeroDur = some 1 := by
      simp [fraudDivisor, hdur, sqlEq, isTrue3]
    have htd : recZeroDur.trip_distance = some 5 := rfl
    rw [fraudSpeed, hdiv, htd]
    norm_num [sqlDiv]

/-- C2 (amended): on a zero-duration record the phase-1 classifier's speed is
the literal 0 (its `CASE` falls to the ELSE branch), while the phase-2 fraud
queries substitute the 1-hour floor, making the effective speed equal to
`trip_distance`; and the fraud queries' guarded divisor is never the non-NULL
value 0, so neither site can divide by zero on such records. -/
theorem zero_duration_guard_amended :
    (∀ r : TripRec, duration_hrs r = some 0 →
      speed_mph r = some 0 ∧ fraudSpeed r = r.trip_distance) ∧
    (∀ r : TripRec, fraudDivisor r ≠ some 0) := by
  constructor
  · intro r h
    constructor
    · simp [speed_mph, h, sqlGt, isTrue3]
    · have hdiv : fraudDivisor r = some 1 := by
        simp [fraudDivisor, h, sqlEq, isTrue3]
      rw [fraudSpeed, hdiv]
      cases hx : r.trip_distance with
      | none => simp [sqlDiv]
      | some x => simp [sqlDiv]
  · exact fraudDivisor_ne_some_zero

/-- C2 (witness): the amended theorem applied to the zero-duration record. -/
theorem zero_duration_guard_amended_witness :
    speed_mph recZeroDur = some 0 ∧ fraudSpeed recZeroDur = recZeroDur.trip_distance :=
  zero_duration_guard_amended.1 recZeroDur
    (by
      have := duration_hrs_eval recZeroDur ⟨2025, 2, 1, 12, 0, 0⟩ ⟨2025, 2, 1, 12, 0, 0⟩
        0 rfl rfl (by decide)
      simpa using this)

/-!
Claim C3.  The imputation query's `USING SAMPLE` clauses carry no
`REPEATABLE (seed)`, so the engine's per-run seed is not fixed by the program:
two runs over identical inputs can synthesize different outputs.  What does
hold is that the output is a function of the per-run seed and the inputs, and
every output row arises from a sampled row of one of the two source periods.
-/

/-- Every row kept by the sampling pass is a row of its input. -/
lemma mem_of_mem_sqlSampleAux {α : Type} (seed pct : ℕ) :
    ∀ (rows : List α) (i : ℕ) (a : α), a ∈ sqlSampleAux seed pct i rows → a ∈ rows := by
  intro rows
  induction rows with
  | nil => intro i a h; simp [sqlSampleAux] at h
  | cons b bs ih =>
    intro i a h
    rw [sqlSampleAux] at h
    split at h
    · rcases List.mem_cons.1 h with h1 | h1
      · exact h1 ▸ List.mem_cons_self b bs
      · exact List.mem_cons_of_mem b (ih (i + 1) a h1)
    · exact List.mem_cons_of_mem b (ih (i + 1) a h)

/-- C3 (counterexample): two runs of the imputation over the same ten-row
December 2023 and December 2024 inputs, differing only in the engine's
per-run sampling seed (which the source query does not pin), produce
different synthesized outputs. -/
theorem imputation_reproducibility_cex :
    impute_december 0 dec23Rows dec24Rows ≠ impute_december 1 dec23Rows dec24Rows := by
  decide

/-- C3 (amended): the imputation is deterministic in the engine seed and the
two source periods — in particular every synthesized record is an exact
image (timestamp-shifted by 2 or 1 calendar years) of a sampled row of the
corresponding source period — but the program fixes no seed, so run-level
reproducibility fails. -/
theorem imputation_reproducibility_amended :
    ∀ (seed : ℕ) (d23 d24 : List RawRow) (r : TripRec),
      r ∈ impute_december seed d23 d24 →
      (∃ x ∈ d23, r = imputeRow 2 x) ∨ (∃ x ∈ d24, r = imputeRow 1 x) := by
  intro seed d23 d24 r hr
  rw [impute_december] at hr
  rcases List.mem_append.1 hr with h | h
  · rcases List.mem_map.1 h with ⟨x, hx, rfl⟩
    exact Or.inl ⟨x, mem_of_mem_sqlSampleAux _ _ d23 0 x hx, rfl⟩
  · rcases List.mem_map.1 h with ⟨x, hx, rfl⟩
    exact Or.inr ⟨x, mem_of_mem_sqlSampleAux _ _ d24 0 x hx, rfl⟩

/-- C3 (witness): the amended theorem applied to a concrete synthesized
record of the seed-0 run. -/
theorem imputation_reproducibility_amended_witness :
    imputeRow 2 (rawDec23 4) ∈ impute_december 0 dec23Rows dec24Rows ∧
    ((∃ x ∈ dec23Rows, imputeRow 2 (rawDec23 4) = imputeRow 2 x) ∨
     (∃ x ∈ dec24Rows, imputeRow 2 (rawDec23 4) = imputeRow 1 x)) :=
  ⟨by decide,
   imputation_reproducibility_amended 0 dec23Rows dec24Rows (imputeRow 2 (rawDec23 4))
     (by decide)⟩

/-!
Claim C5.  The batch loop of `DuckDBPipeline.run` has no exception handler:
the first failing batch aborts the loop and the remaining batches are never
processed (only `impute_december` wraps its own body in try/except).
-/

/-- C5 (counterexample): with a processor that fails on batch 0 and succeeds
on batch 1, the run aborts with batch 0's error and batch 1 — although
well-formed and part of the collection — is never processed, contradicting
the claim that every other batch is still processed. -/
theorem batch_containment_cex :
    runBatches pbFail0 [0, 1] = Except.error "malformed parquet" ∧
    (1 : ℕ) ∈ [0, 1] ∧
    (1 : ℕ) ∉ attemptedBatches pbFail0 [0, 1] := by
  refine ⟨rfl, by decide, by decide⟩

/-- C5 (amended): when every batch succeeds, all batches are processed; but
as soon as one batch fails, the loop aborts with that batch's error and no
later batch is processed — a single failing batch does abort the ingestion of
the remaining batches. -/
theorem batch_containment_amended :
    (∀ {α β ε : Type} (pb : α → Except ε β) (bs : List α),
      (∀ a ∈ bs, ∃ v, pb a = Except.ok v) → attemptedBatches pb bs = bs) ∧
    (∀ {α β ε : Type} (pb : α → Except ε β) (b : α) (bs : List α) (e : ε),
      pb b = Except.error e →
      runBatches pb (b :: bs) = Except.error e ∧ attemptedBatches pb (b :: bs) = [b]) := by
  constructor
  · intro α β ε pb bs h
    induction bs with
    | nil => rfl
    | cons b bs ih =>
      rcases h b (List.mem_cons_self b bs) with ⟨v, hv⟩
      rw [attemptedBatches, hv]
      rw [ih (fun a ha => h a (List.mem_cons_of_mem b ha))]
  · intro α β ε pb b bs e h
    constructor
    · rw [runBatches, h]
    · rw [attemptedBatches, h]

/-- C5 (witness): the amended theorem applied to the concrete failing
processor `pbFail0` and the batch list `[0, 1]`. -/
theorem batch_containment_amended_witness :
    runBatches pbFail0 [0, 1] = Except.error "malformed parquet" ∧
    attemptedBatches pbFail0 [0, 1] = [0] :=
  batch_containment_amended.2 pbFail0 0 [1] "malformed parquet" rfl

/-!
Claims C4 and C10.  The fraud categorizer over the clean partition.
-/

/-- A three-valued condition passes a `WHERE` clause iff it is TRUE. -/
lemma isTrue3_eq_true (c : Option Bool) : isTrue3 c = true ↔ c = some true := by
  revert c; decide

/-- The phase-1 anomaly flag of `recFastShort` (180 mph over 1 mile in 20
seconds, fare 10) evaluates to FALSE: the record is clean. -/
lemma anomalyFlag_recFastShort : anomalyFlag recFastShort = some false := by
  have hdur : duration_hrs recFastShort = some ((20 : ℤ) / 3600 : ℚ) :=
    duration_hrs_eval recFastShort ⟨2025, 4, 2, 14, 0, 0⟩ ⟨2025, 4, 2, 14, 0, 20⟩
      20 rfl rfl (by decide)
  simp only [anomalyFlag, is_physics_fail, is_teleporter, is_stationary, speed_mph, hdur]
  norm_num [recFastShort, sqlGt, sqlLt, sqlEq, sqlAnd, sqlOr, sqlDiv, isTrue3]

/-- The fraud teleporter predicate of `recFastShort` evaluates to TRUE. -/
lemma teleporterPred_recFastShort : fraudTeleporterPred recFastShort = some true := by
  have hdur : duration_hrs recFastShort = some ((20 : ℤ) / 3600 : ℚ) :=
    duration_hrs_eval recFastShort ⟨2025, 4, 2, 14, 0, 0⟩ ⟨2025, 4, 2, 14, 0, 20⟩
      20 rfl rfl (by decide)
  have hdiv : fraudDivisor recFastShort = some ((20 : ℤ) / 3600 : ℚ) := by
    rw [fraudDivisor, hdur]
    norm_num [sqlEq, isTrue3]
  have htd : recFastShort.trip_distance = some 1 := rfl
  rw [fraudTeleporterPred, fraudSpeed, hdiv, htd]
  norm_num [sqlDiv, sqlGt]

/-- `recFastShort` survives the clean/audit classifier and is admitted by the
fraud queries' filter. -/
lemma recFastShort_in_fraudKept :
    recFastShort ∈ fraudKept (cleanPartition [recFastShort]) := by
  have hclean : cleanPartition [recFastShort] = [recFastShort] := by
    simp [cleanPartition, cleanCond, anomalyFlag_recFastShort, sqlNot, isTrue3]
  rw [hclean, fraudKept, List.mem_filter]
  refine ⟨by simp, ?_⟩
  rw [fraudFilter, teleporterPred_recFastShort]
  rfl

/-- C4: over the clean partition, a filtered record is labelled
`"Teleporter (>100mph)"` iff its effective speed (with the zero-duration
guard) exceeds 100, and `"Stationary Charge"` iff distance = 0 and
congestion surcharge > 0; the filter admits exactly the records on which at
least one of the two predicates is TRUE; and the concrete record
`recFastShort` (180 mph over 1 mile, fare 10) is clean under the 65-mph
classifier yet appears in the fraud report as a teleporter — the 100-mph
threshold is strictly looser. -/
theorem fraud_categorizer_spec :
    (∀ (l : List TripRec) (r : TripRec), r ∈ fraudKept (cleanPartition l) →
      ((violationType r = "Teleporter (>100mph)" ↔ fraudTeleporterPred r = some true) ∧
       (violationType r = "Stationary Charge" ↔ fraudStationaryPred r = some true))) ∧
    (∀ r : TripRec, isTrue3 (fraudFilter r) = true ↔
      (fraudTeleporterPred r = some true ∨ fraudStationaryPred r = some true)) ∧
    (isTrue3 (cleanCond recFastShort) = true ∧
     isTrue3 (fraudFilter recFastShort) = true ∧
     violationType recFastShort = "Teleporter (>100mph)") := by
  have hfilter : ∀ r : TripRec, isTrue3 (fraudFilter r) = true ↔
      (fraudTeleporterPred r = some true ∨ fraudStationaryPred r = some true) := by
    intro r
    rw [isTrue3_eq_true, fraudFilter, sqlOr_eq_some_true]
  refine ⟨?_, hfilter, ?_, ?_, ?_⟩
  · intro l r hr
    have hor := (hfilter r).1 (List.mem_filter.1 hr).2
    by_cases ht : isTrue3 (fraudTeleporterPred r) = true
    · have ht' : fraudTeleporterPred r = some true := (isTrue3_eq_true _).1 ht
      constructor
      · simp [violationType, ht, ht', isTrue3]
      · constructor
        · intro hlab
          rw [violationType, if_pos ht] at hlab
          exact absurd hlab (by decide)
        · intro hstat
          exact absurd ht' (stationary_not_teleporter r hstat)
    · have ht' : fraudTeleporterPred r ≠ some true := fun h => ht ((isTrue3_eq_true _).2 h)
      have hstat : fraudStationaryPred r = some true := hor.resolve_left ht'
      have hs : isTrue3 (fraudStationaryPred r) = true := (isTrue3_eq_true _).2 hstat
      constructor
      · constructor
        · intro hlab
          rw [violationType, if_neg ht, if_pos hs] at hlab
          exact absurd hlab (by decide)
        · intro h; exact absurd h ht'
      · rw [violationType, if_neg ht, if_pos hs]
        simp [hstat]
  · rw [isTrue3_eq_true, cleanCond, sqlNot_eq_some_true]
    exact anomalyFlag_recFastShort
  · rw [hfilter]
    exact Or.inl teleporterPred_recFastShort
  · simp [violationType, (isTrue3_eq_true _).2 teleporterPred_recFastShort]

/-- C4 (witness): the labelling characterization applied at the concrete
clean-but-fraud-flagged record. -/
theorem fraud_categorizer_spec_witness :
    recFastShort ∈ fraudKept (cleanPartition [recFastShort]) ∧
    ((violationType recFastShort = "Teleporter (>100mph)" ↔
      fraudTeleporterPred recFastShort = some true) ∧
     (violationType recFastShort = "Stationary Charge" ↔
      fraudStationaryPred recFastShort = some true)) :=
  ⟨recFastShort_in_fraudKept,
   fraud_categorizer_spec.1 [recFastShort] recFastShort recFastShort_in_fraudKept⟩

/-- C10: every row of the fraud summary has `violation_type` equal to
`"Teleporter (>100mph)"` or `"Stationary Charge"` — the `'Other'` branch is
unreachable because the `WHERE` filter admits exactly the records on which
one of the two predicates is TRUE — and any filtered record whose speed
predicate is TRUE is labelled as a teleporter (the speed `WHEN` is evaluated
first). -/
theorem fraud_summary_no_other :
    ∀ l : List TripRec,
      (∀ v ∈ fraudSummaryTypes l,
        v = "Teleporter (>100mph)" ∨ v = "Stationary Charge") ∧
      (∀ r ∈ fraudKept l, fraudTeleporterPred r = some true →
        violationType r = "Teleporter (>100mph)") := by
  intro l
  constructor
  · intro v hv
    rw [fraudSummaryTypes, List.mem_dedup] at hv
    rcases List.mem_map.1 hv with ⟨r, hr, rfl⟩
    have hor := (sqlOr_eq_some_true _ _).1
      ((isTrue3_eq_true _).1 ((List.mem_filter.1 hr).2 : isTrue3 (fraudFilter r) = true))
    by_cases ht : isTrue3 (fraudTeleporterPred r) = true
    · exact Or.inl (by simp [violationType, ht])
    · have ht' : fraudTeleporterPred r ≠ some true := fun h => ht ((isTrue3_eq_true _).2 h)
      have hstat : fraudStationaryPred r = some true := hor.resolve_left ht'
      exact Or.inr (by simp [violationType, ht, (isTrue3_eq_true _).2 hstat])
  · intro r _ ht
    simp [violationType, (isTrue3_eq_true _).2 ht]

/-- C10 (witness): applied to the singleton clean list containing the
concrete 180-mph record. -/
theorem fraud_summary_no_other_witness :
    "Teleporter (>100mph)" ∈ fraudSummaryTypes [recFastShort] ∧
    ("Teleporter (>100mph)" = "Teleporter (>100mph)" ∨
     "Teleporter (>100mph)" = "Stationary Charge") := by
  have hmem : "Teleporter (>100mph)" ∈ fraudSummaryTypes [recFastShort] := by
    have hk : fraudKept [recFastShort] = [recFastShort] := by
      rw [fraudKept]
      have : isTrue3 (fraudFilter recFastShort) = true := by
        rw [fraudFilter, teleporterPred_recFastShort]; rfl
      simp [this]
    rw [fraudSummaryTypes, hk]
    simp [violationType, (isTrue3_eq_true _).2 teleporterPred_recFastShort]
  exact ⟨hmem, (fraud_summary_no_other [recFastShort]).1 _ hmem⟩

/-!
Claim C6.  The leakage audit over the eligible subset of the clean partition.
-/

/-- A list of definitely-non-NULL values loses nothing under SQL's
NULL-skipping aggregation. -/
lemma filterMap_id_map_some {α : Type} (f : α → ℚ) :
    ∀ l : List α, (l.map (fun a => some (f a))).filterMap id = l.map f := by
  intro l
  induction l with
  | nil => rfl
  | cons a l ih => simp [List.filterMap_cons, ih]

/-- SQL `SUM` over a list of non-NULL values is the plain sum. -/
lemma sqlSum_map_some {α : Type} (f : α → ℚ) (l : List α) (hne : l ≠ []) :
    sqlSum (l.map (fun a => some (f a))) = some ((l.map f).sum) := by
  rw [sqlSum, filterMap_id_map_some]
  have hmapne : l.map f ≠ [] := by simpa using hne
  simp [hmapne]

/-- The sum of a 1/0 indicator is the count of rows satisfying the
predicate. -/
lemma sum_indicator {α : Type} (p : α → Bool) :
    ∀ l : List α,
      ((l.map (fun a => if p a then (1 : ℚ) else 0)).sum) = ((l.filter p).length : ℚ) := by
  intro l
  induction l with
  | nil => simp
  | cons a l ih =>
    rw [List.map_cons, List.sum_cons, ih, List.filter_cons]
    by_cases hpa : p a = true
    · simp only [hpa, if_true, List.length_cons]
      push_cast
      ring
    · have hfa : p a = false := by revert hpa; cases p a <;> simp
      simp [hfa]

/-- `SUM(CASE WHEN congestion_surcharge > 0 THEN 1 ELSE 0 END)` over a
non-empty eligible set counts the compliant records. -/
lemma compliant_trips_count (l : List TripRec) (h : eligibleTrips l ≠ []) :
    compliant_trips l =
      some (((eligibleTrips l).filter
        (fun r => isTrue3 (sqlGt r.congestion_surcharge (some 0)))).length : ℚ) := by
  rw [compliant_trips]
  have hmap : (eligibleTrips l).map complianceCase
      = (eligibleTrips l).map
          (fun r => some (if isTrue3 (sqlGt r.congestion_surcharge (some 0)) then (1 : ℚ) else 0)) := by
    simp [complianceCase]
  rw [hmap, sqlSum_map_some _ _ h,
    sum_indicator (fun r => isTrue3 (sqlGt r.congestion_surcharge (some 0))) (eligibleTrips l)]

/-- C6: over a non-empty eligible set (pickup at or after 2025-01-05, pickup
zone outside and drop-off zone inside the congestion zone), the audit returns
compliant_trips = the count of records with surcharge > 0,
compliance_rate_pct = compliant / total × 100 and
estimated_revenue_loss = (total − compliant) × 2.75; in particular 100
eligible records of which 80 are compliant yield rate 80 and loss 55. -/
theorem leakage_audit_spec :
    ∀ clean : List TripRec, eligibleTrips clean ≠ [] →
      compliant_trips clean = some ((((eligibleTrips clean).filter
          (fun r => isTrue3 (sqlGt r.congestion_surcharge (some 0)))).length : ℚ)) ∧
      compliance_rate_pct clean = some ((((eligibleTrips clean).filter
          (fun r => isTrue3 (sqlGt r.congestion_surcharge (some 0)))).length : ℚ) * 100 /
          ((eligibleTrips clean).length : ℚ)) ∧
      estimated_revenue_loss clean = some ((((eligibleTrips clean).length : ℚ) -
          (((eligibleTrips clean).filter
            (fun r => isTrue3 (sqlGt r.congestion_surcharge (some 0)))).length : ℚ)) * (11/4)) ∧
      ((eligibleTrips clean).length = 100 →
        ((eligibleTrips clean).filter
          (fun r => isTrue3 (sqlGt r.congestion_surcharge (some 0)))).length = 80 →
        compliance_rate_pct clean = some 80 ∧ estimated_revenue_loss clean = some 55) := by
  intro clean h
  have hc := compliant_trips_count clean h
  have hlen0 : (eligibleTrips clean).length ≠ 0 := fun h0 => h (List.length_eq_zero.1 h0)
  have hlenQ : ((eligibleTrips clean).length : ℚ) ≠ 0 := Nat.cast_ne_zero.2 hlen0
  refine ⟨hc, ?_, ?_, ?_⟩
  · rw [compliance_rate_pct, hc, total_eligible_trips]
    simp [sqlMul, sqlDiv, hlenQ]
  · rw [estimated_revenue_loss, hc, total_eligible_trips]
    simp [sqlSub, sqlMul]
  · intro h100 h80
    constructor
    · rw [compliance_rate_pct, hc, total_eligible_trips, h100, h80]
      norm_num [sqlMul, sqlDiv]
    · rw [estimated_revenue_loss, hc, total_eligible_trips, h100, h80]
      norm_num [sqlSub, sqlMul]

/-- C6 (witness): the audit formulas applied to the concrete list of 100
eligible trips, 80 of them compliant. -/
theorem leakage_audit_spec_witness :
    compliance_rate_pct leakHundred = some 80 ∧
    estimated_revenue_loss leakHundred = some 55 :=
  (leakage_audit_spec leakHundred (by decide)).2.2.2 (by decide) (by decide)

/-!
Claim C7.  Imputation trigger and shape: when no filename mentions 2025-12,
the clean partition additionally receives the concatenation of the 30%
sample of December 2023 shifted forward 2 calendar years and the 70% sample
of December 2024 shifted forward 1 calendar year; with a 2025-12 batch
present, no imputation happens.
-/

/-- C7: (i) imputation runs iff no processed filename contains "2025-12";
(ii) when it runs, the clean partition is the processed batches' clean rows
followed by the 2-year-shifted 30% sample of 2023-12 and the 1-year-shifted
70% sample of 2024-12; (iii) when a 2025-12 batch exists the clean partition
is the processed batches' clean rows only; (iv) the synthesized rows shift
the coalesced source timestamp by `INTERVAL k YEAR`, and (v) a calendar-year
shift adds exactly `k` to the year and preserves the month. -/
theorem december_imputation_spec :
    (∀ files : List String, shouldImputeDecember files = true ↔
      ∀ f ∈ files, strContains "2025-12" f = false) ∧
    (∀ (seed : ℕ) (batches : List (String × List RawRow)) (d23 d24 : List RawRow),
      shouldImputeDecember (batches.map Prod.fst) = true →
      phase1CleanData seed batches d23 d24 =
        ((batches.map (fun b => cleanPartition (b.2.map (normalizeBatchRow b.1)))).flatten)
          ++ ((sqlSample (2 * seed) 30 d23).map (imputeRow 2)
              ++ (sqlSample (2 * seed + 1) 70 d24).map (imputeRow 1))) ∧
    (∀ (seed : ℕ) (batches : List (String × List RawRow)) (d23 d24 : List RawRow),
      shouldImputeDecember (batches.map Prod.fst) = false →
      phase1CleanData seed batches d23 d24 =
        ((batches.map (fun b => cleanPartition (b.2.map (normalizeBatchRow b.1)))).flatten)) ∧
    (∀ (k : ℤ) (row : RawRow) (dt : DateTime),
      coalesce row.tpep_pickup_datetime row.lpep_pickup_datetime = some dt →
      (imputeRow k row).pickup_time = some (addYears k dt)) ∧
    (∀ (k : ℤ) (dt : DateTime),
      (addYears k dt).year = dt.year + k ∧ (addYears k dt).month = dt.month) := by
  refine ⟨?_, ?_, ?_, ?_, fun k dt => ⟨rfl, rfl⟩⟩
  · intro files
    rw [shouldImputeDecember]
    simp [List.any_eq_true]
  · intro seed batches d23 d24 h
    rw [phase1CleanData, if_pos h, impute_december]
  · intro seed batches d23 d24 h
    rw [phase1CleanData, if_neg (by simp [h])]
    simp
  · intro k row dt h
    simp [imputeRow, h]

/-- C7 (witness): the trigger and shape facts applied to concrete batch
lists with and without a December 2025 file, and to a concrete yellow
December 2023 row. -/
theorem december_imputation_spec_witness :
    shouldImputeDecember (batchesNoDec.map Prod.fst) = true ∧
    phase1CleanData 0 batchesNoDec dec23Rows dec24Rows =
      ((batchesNoDec.map (fun b => cleanPartition (b.2.map (normalizeBatchRow b.1)))).flatten)
        ++ ((sqlSample 0 30 dec23Rows).map (imputeRow 2)
            ++ (sqlSample 1 70 dec24Rows).map (imputeRow 1)) ∧
    shouldImputeDecember (batchesWithDec.map Prod.fst) = false ∧
    phase1CleanData 0 batchesWithDec dec23Rows dec24Rows =
      ((batchesWithDec.map (fun b => cleanPartition (b.2.map (normalizeBatchRow b.1)))).flatten) ∧
    (imputeRow 2 (rawDec23 0)).pickup_time = some (addYears 2 ⟨2023, 12, 3, 10, 0, 0⟩) :=
  ⟨by decide,
   by
     have := december_imputation_spec.2.1 0 batchesNoDec dec23Rows dec24Rows (by decide)
     simpa using this,
   by decide,
   december_imputation_spec.2.2.1 0 batchesWithDec dec23Rows dec24Rows (by decide),
   december_imputation_spec.2.2.2.1 2 (rawDec23 0) ⟨2023, 12, 3, 10, 0, 0⟩ (by decide)⟩

/-!
Claim C8.  The border-effect output is the inner join of the two per-zone
drop-off counts.
-/

/-- A zone is in the grouped baseline CTE iff some baseline row passing the
border filter drops off there. -/
lemma mem_q24Zones (rows : List RawRow) (z : ℤ) :
    z ∈ q24Zones rows ↔ ∃ r ∈ rows, q24Keep r = true ∧ r.DOLocationID = some z := by
  simp [q24Zones, List.mem_dedup, List.mem_filterMap, List.mem_filter, and_assoc]

/-- A zone is in the grouped comparison CTE iff some clean Q1 row passing the
border filter drops off there. -/
lemma mem_q25Zones (rows : List TripRec) (z : ℤ) :
    z ∈ q25Zones rows ↔ ∃ r ∈ rows, q25Keep r = true ∧ r.dropoff_loc = some z := by
  simp [q25Zones, List.mem_dedup, List.mem_filterMap, List.mem_filter, and_assoc]

/-- C8: a zone appears in the border-effect output iff it has at least one
qualifying drop-off in the baseline period and at least one in the comparison
period (inner join); every output row carries
pct_change = (count_new − count_old) / count_old × 100 and
location_type = "Inside Zone" iff the zone is in the congestion set; and on
the concrete periods with baseline zones {238, 239, 263} and comparison zones
{239, 263, 262} the output rows are exactly the zones [239, 263]. -/
theorem border_effect_spec :
    (∀ (rows24 : List RawRow) (rows25 : List TripRec) (z : ℤ),
      (∃ p ∈ borderEffect rows24 rows25, p.1 = z) ↔
        ((∃ r ∈ rows24, q24Keep r = true ∧ r.DOLocationID = some z) ∧
         (∃ r ∈ rows25, q25Keep r = true ∧ r.dropoff_loc = some z))) ∧
    (∀ (rows24 : List RawRow) (rows25 : List TripRec),
      ∀ p ∈ borderEffect rows24 rows25,
        p.2.1 = ((q25Count rows25 p.1 : ℚ) - (q24Count rows24 p.1 : ℚ)) /
            (q24Count rows24 p.1 : ℚ) * 100 ∧
        p.2.2 = (if p.1 ∈ CONGESTION_ZONE_IDS then "Inside Zone" else "Outside Zone")) ∧
    ((borderEffect border24Rows border25Rows).map Prod.fst = [239, 263]) := by
  refine ⟨?_, ?_, by decide⟩
  · intro rows24 rows25 z
    rw [← mem_q24Zones, ← mem_q25Zones]
    constructor
    · rintro ⟨p, hp, rfl⟩
      rcases List.mem_map.1 hp with ⟨w, hw, rfl⟩
      have hw' := List.mem_filter.1 hw
      exact ⟨hw'.1, of_decide_eq_true hw'.2⟩
    · rintro ⟨h24, h25⟩
      refine ⟨_, List.mem_map.2 ⟨z, List.mem_filter.2 ⟨h24, decide_eq_true h25⟩, rfl⟩, rfl⟩
  · intro rows24 rows25 p hp
    rcases List.mem_map.1 hp with ⟨w, _, rfl⟩
    exact ⟨rfl, rfl⟩

/-- C8 (witness): the join characterization applied to zone 239 on the
concrete periods. -/
theorem border_effect_spec_witness :
    (∃ p ∈ borderEffect border24Rows border25Rows, p.1 = 239) ∧
    ((∃ r ∈ border24Rows, q24Keep r = true ∧ r.DOLocationID = some 239) ∧
     (∃ r ∈ border25Rows, q25Keep r = true ∧ r.dropoff_loc = some 239)) := by
  have h : (∃ r ∈ border24Rows, q24Keep r = true ∧ r.DOLocationID = some 239) ∧
      (∃ r ∈ border25Rows, q25Keep r = true ∧ r.dropoff_loc = some 239) := by
    refine ⟨⟨raw24DO 239, by decide, by decide, rfl⟩, ⟨rec25DO 239, by decide, by decide, rfl⟩⟩
  exact ⟨(border_effect_spec.1 border24Rows border25Rows 239).2 h, h⟩

/-!
Claim C9.  The fairness query carries a global `WHERE fare > 0`, so the
short-trip count is also restricted to fare-paying records.
-/

/-- C9 (counterexample): `recShortNoFare` satisfies the claim's short-trip
condition (distance 1 < 2, drop-off zone 161 in the congestion set), yet over
the list `[recFareOnly, recShortNoFare]` the query reports a short-trip count
of 0 — the zero-fare record is filtered out by `WHERE fare > 0` before the
short-trip indicator is summed. -/
theorem fairness_short_trip_cex :
    isTrue3 (sqlAnd (sqlLt recShortNoFare.trip_distance (some 2))
      (sqlInList recShortNoFare.dropoff_loc CONGESTION_ZONE_IDS)) = true ∧
    short_trip_count [recFareOnly, recShortNoFare] = some 0 := by
  constructor
  · decide
  · have hrows : fairnessRows [recFareOnly, recShortNoFare] = [recFareOnly] := by decide
    have hcase : shortTripCase recFareOnly = some 0 := by decide
    rw [short_trip_count, hrows]
    simp [hcase, sqlSum]

/-- C9 (amended): the whole fairness query is restricted to `fare > 0` rows:
a record whose fare is not positive contributes to neither aggregate; on the
retained rows the tip expression is exactly
(total_amount − fare − congestion_surcharge) / fare; and over a non-empty
retained set short_trip_count counts the retained records with
trip_distance < 2 and drop-off in the congestion zone. -/
theorem fairness_spec_amended :
    ∀ clean : List TripRec,
      (∀ r ∈ clean, isTrue3 (sqlGt r.fare (some 0)) = false → r ∉ fairnessRows clean) ∧
      (∀ r ∈ fairnessRows clean, tipCaseExpr r =
        sqlDiv (sqlSub (sqlSub r.total_amount r.fare) r.congestion_surcharge) r.fare) ∧
      (fairnessRows clean ≠ [] → short_trip_count clean =
        some ((((fairnessRows clean).filter (fun r =>
          isTrue3 (sqlAnd (sqlLt r.trip_distance (some 2))
            (sqlInList r.dropoff_loc CONGESTION_ZONE_IDS)))).length : ℚ))) := by
  intro clean
  refine ⟨?_, ?_, ?_⟩
  · intro r _ hf hmem
    rw [fairnessRows, List.mem_filter] at hmem
    rw [hmem.2] at hf
    exact Bool.noConfusion hf
  · intro r hr
    have hf := (List.mem_filter.1 hr).2
    rw [tipCaseExpr, if_pos hf]
  · intro hne
    rw [short_trip_count]
    have hmap : (fairnessRows clean).map shortTripCase
        = (fairnessRows clean).map
            (fun r => some (if isTrue3 (sqlAnd (sqlLt r.trip_distance (some 2))
              (sqlInList r.dropoff_loc CONGESTION_ZONE_IDS)) then (1 : ℚ) else 0)) := by
      simp [shortTripCase]
    rw [hmap, sqlSum_map_some _ _ hne,
      sum_indicator (fun r => isTrue3 (sqlAnd (sqlLt r.trip_distance (some 2))
        (sqlInList r.dropoff_loc CONGESTION_ZONE_IDS))) (fairnessRows clean)]

/-- C9 (witness): the amended characterization applied to concrete lists. -/
theorem fairness_spec_amended_witness :
    recShortNoFare ∉ fairnessRows [recShortNoFare] ∧
    tipCaseExpr recFareOnly =
      sqlDiv (sqlSub (sqlSub recFareOnly.total_amount recFareOnly.fare)
        recFareOnly.congestion_surcharge) recFareOnly.fare ∧
    short_trip_count [recFareOnly] =
      some ((((fairnessRows [recFareOnly]).filter (fun r =>
        isTrue3 (sqlAnd (sqlLt r.trip_distance (some 2))
          (sqlInList r.dropoff_loc CONGESTION_ZONE_IDS)))).length : ℚ)) :=
  ⟨(fairness_spec_amended [recShortNoFare]).1 recShortNoFare (by decide) (by decide),
   (fairness_spec_amended [recFareOnly]).2.1 recFareOnly (by decide),
   (fairness_spec_amended [recFareOnly]).2.2 (by decide)⟩
